import Mathlib

/-
Verification of the Summit paginated document viewer (frontend PDF viewer
components).  The definitions below are shallow embeddings of the page
navigation, document loading, rendering, resize and progress-sync logic of
src/frontend/src/components/PDFViewer.tsx,
src/frontend/src/components/MinimalPDFViewer.tsx, the react-pdf based viewer
(ReactPDFViewer) and the reading page component.
-/

namespace Summit

/-- JS truthiness helper: `totalPages || 1` evaluates to 1 when `totalPages`
is 0 and to `totalPages` otherwise. -/
def orOne (n : ℤ) : ℤ := if n = 0 then 1 else n

/-- The clamp used at the page-number input onChange handler in every viewer:
`Math.min(Math.max(v, 1), totalPages || 1)`. -/
def clampPage (totalPages n : ℤ) : ℤ := min (max n 1) (orOne totalPages)

/-- Viewer state relevant to page navigation: the `page` and `totalPages`
React state variables. -/
structure ViewerState where
  page : ℤ
  totalPages : ℤ
deriving DecidableEq, Repr

/-- Initial state of PDFViewer / MinimalPDFViewer: `useState(startPage)` and
`useState(0)` for totalPages. -/
def initState (startPage : ℤ) : ViewerState :=
  { page := startPage, totalPages := 0 }

/-- Completion of a successful document load in PDFViewer: the effect runs
`setTotalPages(doc.numPages)` and does not touch `page`. -/
def installLoad (s : ViewerState) (numPages : ℤ) : ViewerState :=
  { s with totalPages := numPages }

namespace PDFViewer

/-- PDFViewer handlePageChange: `setPage(newPage); saveProgress(newPage)` with
no internal clamp.  Returns the new state and the page sent to saveProgress. -/
def handlePageChange (s : ViewerState) (n : ℤ) : ViewerState × ℤ :=
  ({ s with page := n }, n)

/-- The Prev button onClick: `handlePageChange(Math.max(1, page - 1))`. -/
def prevClick (s : ViewerState) : ViewerState :=
  (handlePageChange s (max 1 (s.page - 1))).1

/-- The Next button onClick:
`handlePageChange(Math.min(totalPages || 1, page + 1))`. -/
def nextClick (s : ViewerState) : ViewerState :=
  (handlePageChange s (min (orOne s.totalPages) (s.page + 1))).1

/-- The page-number input onChange: `setPage(clamped)` with the full clamp. -/
def inputChange (s : ViewerState) (v : ℤ) : ViewerState :=
  { s with page := clampPage s.totalPages v }

end PDFViewer

/-- A user navigation action on the PDFViewer UI. -/
inductive NavOp where
  | prevOp : NavOp
  | nextOp : NavOp
  | inputOp (v : ℤ) : NavOp
deriving DecidableEq, Repr

/-- Apply one UI navigation action to the PDFViewer state. -/
def applyOp (s : ViewerState) : NavOp → ViewerState
  | .prevOp => PDFViewer.prevClick s
  | .nextOp => PDFViewer.nextClick s
  | .inputOp v => PDFViewer.inputChange s v

/-- Apply a sequence of UI navigation actions. -/
def applyOps (s : ViewerState) (ops : List NavOp) : ViewerState :=
  ops.foldl applyOp s

namespace ReactPDFViewer

/-- handlePageChange of the react-pdf viewer (part_001): clamps internally
(`Math.min(Math.max(newPage, 1), totalPages || 1)`), sets the page and sends
the clamped page to saveProgress. -/
def handlePageChange (s : ViewerState) (n : ℤ) : ViewerState × ℤ :=
  ({ s with page := clampPage s.totalPages n }, clampPage s.totalPages n)

/-- The Prev button onClick of the react-pdf viewer:
`handlePageChange(page - 1)`. -/
def prevClick (s : ViewerState) : ViewerState :=
  (handlePageChange s (s.page - 1)).1

/-- The Next button onClick of the react-pdf viewer:
`handlePageChange(page + 1)`. -/
def nextClick (s : ViewerState) : ViewerState :=
  (handlePageChange s (s.page + 1)).1

end ReactPDFViewer

/-- Invariant of the navigation state once a document with `numPages` pages is
installed: the page is in range and totalPages is fixed. -/
def InvAt (numPages : ℤ) (s : ViewerState) : Prop :=
  1 ≤ s.page ∧ s.page ≤ numPages ∧ s.totalPages = numPages

lemma invAt_applyOp (numPages : ℤ) (hn : 1 ≤ numPages) (s : ViewerState)
    (op : NavOp) (h : InvAt numPages s) : InvAt numPages (applyOp s op) := by
  rcases op with _ | _ | v <;>
    simp only [applyOp, PDFViewer.prevClick, PDFViewer.nextClick,
      PDFViewer.inputChange, PDFViewer.handlePageChange, clampPage, orOne,
      InvAt] at h ⊢ <;> omega

lemma invAt_applyOps (numPages : ℤ) (hn : 1 ≤ numPages) (s : ViewerState)
    (ops : List NavOp) (h : InvAt numPages s) :
    InvAt numPages (applyOps s ops) := by
  induction ops generalizing s with
  | nil => exact h
  | cons op rest ih =>
      exact ih (applyOp s op) (invAt_applyOp numPages hn s op h)

end Summit

namespace Summit

/- ------------------------------------------------------------------ C1 -/

/-- C1 (counterexample): in PDFViewer the load completion only runs
setTotalPages and never re-clamps the page, so with startPage 999 and a
10-page document the state immediately after the load has currentPage 999,
violating currentPage ≤ pageCount. -/
theorem c1_load_does_not_reclamp :
    (installLoad (initState 999) 10).page = 999 ∧
      ¬ (installLoad (initState 999) 10).page ≤
          (installLoad (initState 999) 10).totalPages := by
  decide

/-- C1 (amended): provided the externally supplied startPage already lies in
[1, numPages], then after the load installs the page count the invariant
1 ≤ currentPage ≤ pageCount holds and is preserved by every subsequent
sequence of UI navigation operations of PDFViewer. -/
theorem c1_invariant_when_start_in_range (startPage numPages : ℤ)
    (h1 : 1 ≤ startPage) (h2 : startPage ≤ numPages) (ops : List NavOp) :
    1 ≤ (applyOps (installLoad (initState startPage) numPages) ops).page ∧
      (applyOps (installLoad (initState startPage) numPages) ops).page ≤
        (applyOps (installLoad (initState startPage) numPages) ops).totalPages := by
  have hn : 1 ≤ numPages := le_trans h1 h2
  have h0 : InvAt numPages (installLoad (initState startPage) numPages) := by
    exact ⟨h1, h2, rfl⟩
  have h := invAt_applyOps numPages hn _ ops h0
  exact ⟨h.1, by rw [h.2.2]; exact h.2.1⟩

theorem c1_invariant_when_start_in_range_witness :
    (1 : ℤ) ≤ 3 ∧ (3 : ℤ) ≤ 10 ∧
      (1 ≤ (applyOps (installLoad (initState 3) 10)
              [NavOp.nextOp, NavOp.inputOp 999, NavOp.prevOp]).page ∧
        (applyOps (installLoad (initState 3) 10)
            [NavOp.nextOp, NavOp.inputOp 999, NavOp.prevOp]).page ≤
          (applyOps (installLoad (initState 3) 10)
              [NavOp.nextOp, NavOp.inputOp 999, NavOp.prevOp]).totalPages) :=
  ⟨by decide, by decide,
    c1_invariant_when_start_in_range 3 10 (by decide) (by decide)
      [NavOp.nextOp, NavOp.inputOp 999, NavOp.prevOp]⟩

/- ------------------------------------------------------------------ C2 -/

/-- C2: the clamp used by page navigation is in range and idempotent for
every positive page count and every integer input, and on a 10-page document
the input box sends a typed 0 to page 1 and a typed 999 to page 10. -/
theorem c2_clamp_in_range_idempotent (pc n : ℤ) (h : 0 < pc) :
    (1 ≤ clampPage pc n ∧ clampPage pc n ≤ pc ∧
      clampPage pc (clampPage pc n) = clampPage pc n) ∧
    (PDFViewer.inputChange ⟨5, 10⟩ 0).page = 1 ∧
    (PDFViewer.inputChange ⟨5, 10⟩ 999).page = 10 := by
  refine ⟨?_, by decide, by decide⟩
  simp only [clampPage, orOne]
  omega

theorem c2_clamp_in_range_idempotent_witness :
    (0 : ℤ) < 10 ∧
      ((1 ≤ clampPage 10 0 ∧ clampPage 10 0 ≤ 10 ∧
          clampPage 10 (clampPage 10 0) = clampPage 10 0) ∧
        (PDFViewer.inputChange ⟨5, 10⟩ 0).page = 1 ∧
        (PDFViewer.inputChange ⟨5, 10⟩ 999).page = 10) :=
  ⟨by decide, c2_clamp_in_range_idempotent 10 0 (by decide)⟩

/- ------------------------------------------------------------------ C3 -/

/-- C3 (counterexample): handlePageChange of PDFViewer.tsx applies no clamp,
so the programmatic call handlePageChange(999) on a 10-page document at page
10 sets currentPage to 999, not to clamp(999) = 10. -/
theorem c3_pdfviewer_handlePageChange_unclamped :
    (PDFViewer.handlePageChange ⟨10, 10⟩ 999).1.page = 999 ∧
      clampPage 10 999 = 10 ∧ ((999 : ℤ) ≠ 10) := by
  decide

/-- C3 (amended): in the react-pdf viewer (part_001) every transition passes
through the clamp: handlePageChange sets and saves clamp(n), next and prev
are clamp(page ± 1), both are no-ops on currentPage at the bounds even for
programmatic calls, and from page 1 of a 10-page document nine next calls
reach page 10 while a tenth leaves it at 10.  In PDFViewer.tsx the clamping
happens at the UI call sites instead of inside handlePageChange. -/
theorem c3_reactpdf_nav_clamped (s : ViewerState) (n : ℤ)
    (h : 1 ≤ s.totalPages) :
    ((ReactPDFViewer.handlePageChange s n).1.page = clampPage s.totalPages n ∧
      (ReactPDFViewer.handlePageChange s n).2 = clampPage s.totalPages n) ∧
    (s.page = s.totalPages → (ReactPDFViewer.nextClick s).page = s.page) ∧
    (s.page = 1 → (ReactPDFViewer.prevClick s).page = s.page) ∧
    (s.totalPages ≤ n → (ReactPDFViewer.handlePageChange s n).1.page = s.totalPages) ∧
    (ReactPDFViewer.nextClick^[9] ⟨1, 10⟩).page = 10 ∧
    (ReactPDFViewer.nextClick^[10] ⟨1, 10⟩).page = 10 := by
  refine ⟨⟨rfl, rfl⟩, ?_, ?_, ?_, by decide, by decide⟩ <;>
    intro hb <;>
    simp only [ReactPDFViewer.nextClick, ReactPDFViewer.prevClick,
      ReactPDFViewer.handlePageChange, clampPage, orOne] <;> omega

theorem c3_reactpdf_nav_clamped_witness :
    (1 : ℤ) ≤ (ViewerState.mk 10 10).totalPages ∧
      (((ReactPDFViewer.handlePageChange ⟨10, 10⟩ 999).1.page =
            clampPage (ViewerState.mk 10 10).totalPages 999 ∧
          (ReactPDFViewer.handlePageChange ⟨10, 10⟩ 999).2 =
            clampPage (ViewerState.mk 10 10).totalPages 999) ∧
        ((ViewerState.mk 10 10).page = (ViewerState.mk 10 10).totalPages →
          (ReactPDFViewer.nextClick ⟨10, 10⟩).page = (ViewerState.mk 10 10).page) ∧
        ((ViewerState.mk 10 10).page = 1 →
          (ReactPDFViewer.prevClick ⟨10, 10⟩).page = (ViewerState.mk 10 10).page) ∧
        ((ViewerState.mk 10 10).totalPages ≤ 999 →
          (ReactPDFViewer.handlePageChange ⟨10, 10⟩ 999).1.page =
            (ViewerState.mk 10 10).totalPages) ∧
        (ReactPDFViewer.nextClick^[9] ⟨1, 10⟩).page = 10 ∧
        (ReactPDFViewer.nextClick^[10] ⟨1, 10⟩).page = 10) :=
  ⟨by decide, c3_reactpdf_nav_clamped ⟨10, 10⟩ 999 (by decide)⟩

/- ------------------------------------------------------------------ C7 -/

/-- Outcome of the fetch inside a saveProgress call: a network failure (the
fetch promise rejects) or an HTTP response with a status code. -/
inductive FetchOutcome where
  | networkError (msg : String) : FetchOutcome
  | response (status : ℤ) : FetchOutcome
deriving DecidableEq, Repr

/-- Observable outcome of one saveProgress call. -/
structure SaveResult where
  requestSent : Bool
  consoleLogged : Bool
  toastShown : Bool
  raised : Bool
deriving DecidableEq, Repr

namespace PDFViewer

/-- saveProgress of PDFViewer (identical in MinimalPDFViewer and the
react-pdf viewer): returns immediately when readingId is absent; otherwise
performs the fetch inside try/catch, logging a network failure with
console.error and rethrowing nothing; the response status is never
inspected, so a non-success HTTP status produces no log. -/
def saveProgress (readingId : Option String) (f : FetchOutcome) : SaveResult :=
  match readingId with
  | none => ⟨false, false, false, false⟩
  | some _ =>
      match f with
      | .networkError _ => ⟨true, true, false, false⟩
      | .response _ => ⟨true, false, false, false⟩

/-- handlePageChange with its fire-and-forget save: setPage(newPage) runs
unconditionally and the saveProgress promise is not awaited, so the page
update is independent of the fetch outcome. -/
def handlePageChangeWithSave (s : ViewerState) (readingId : Option String)
    (f : FetchOutcome) (n : ℤ) : ViewerState × SaveResult :=
  ({ s with page := n }, saveProgress readingId f)

end PDFViewer

namespace ReadingPage

/-- saveProgress of the reading page (part_009): the readingId comes from the
route params with no absence guard, there is no try/catch around the fetch
(a network rejection propagates out of the call), and a non-ok response shows
an error toast. -/
def saveProgress (f : FetchOutcome) : SaveResult :=
  match f with
  | .networkError _ => ⟨true, false, false, true⟩
  | .response status =>
      if status < 200 ∨ 300 ≤ status then ⟨true, false, true, false⟩
      else ⟨true, false, false, false⟩

end ReadingPage

/-- C7 (counterexample): in the reading page variant a network failure during
saveProgress is not caught, so the rejection propagates to the caller; and in
PDFViewer a non-success HTTP status is never detected, so it is not logged,
contradicting the claim that every save failure is logged and never thrown. -/
theorem c7_save_failure_escapes :
    (ReadingPage.saveProgress (.networkError "net")).raised = true ∧
      (PDFViewer.saveProgress (some "r1") (.response 500)).consoleLogged =
        false := by
  constructor <;> rfl

/-- C7 (amended): in the viewer components, saveProgress sends no request
when readingId is absent, never raises into the caller for any fetch outcome,
and logs network failures; and navigation updates currentPage to the new page
regardless of the fetch outcome, because the save is fire-and-forget.  In the
reading page variant a non-ok status is surfaced as a toast while a network
rejection escapes the call. -/
theorem c7_save_noop_and_never_raises (f : FetchOutcome) (s : ViewerState)
    (readingId : Option String) (n : ℤ) :
    (PDFViewer.saveProgress none f).requestSent = false ∧
      (∀ id, (PDFViewer.saveProgress (some id) f).raised = false) ∧
      (∀ id m,
        (PDFViewer.saveProgress (some id) (.networkError m)).consoleLogged =
          true) ∧
      (PDFViewer.handlePageChangeWithSave s readingId f n).1.page = n ∧
      (∀ m, (ReadingPage.saveProgress (.networkError m)).raised = true) ∧
      (∀ status, status < 200 ∨ 300 ≤ status →
        (ReadingPage.saveProgress (.response status)).toastShown = true) := by
  refine ⟨rfl, ?_, fun id m => rfl, rfl, fun m => rfl, ?_⟩
  · intro id
    rcases f with m | status <;> rfl
  · intro status hs
    simp [ReadingPage.saveProgress, if_pos hs]

/- ------------------------------------------------------------------ C8 -/

/-- A rasterization surface: physical pixel dimensions of the canvas and its
logical CSS display size. -/
structure Surface where
  pixelW : ℚ
  pixelH : ℚ
  styleW : ℚ
  styleH : ℚ
deriving DecidableEq, Repr

/-- pdfjs getViewport: the viewport of a page of intrinsic size (iw, ih) at a
scale is (iw * scale, ih * scale). -/
structure Viewport where
  w : ℚ
  h : ℚ
deriving DecidableEq, Repr

def getViewport (iw ih scale : ℚ) : Viewport := ⟨iw * scale, ih * scale⟩

namespace PDFViewer

/-- The scale computed by renderPage in PDFViewer with a container present:
`Math.max(Math.min(container.clientWidth / page.width, 2), 1.2)`. -/
def renderScale (containerWidth iw : ℚ) : ℚ :=
  max (min (containerWidth / iw) 2) (6 / 5)

/-- The surface produced by renderPage in PDFViewer: canvas.width and height
are set to the viewport size and the style size to the same values; the
device pixel ratio is never read. -/
def renderSurface (containerWidth iw ih dpr : ℚ) : Surface :=
  let vp := getViewport iw ih (renderScale containerWidth iw)
  ⟨vp.w, vp.h, vp.w, vp.h⟩

end PDFViewer

namespace MinimalPDFViewer

/-- The scale computed by renderPage in MinimalPDFViewer:
`Math.min((currentWidth - 20) / page.width, 2.5)`. -/
def renderScale (containerWidth iw : ℚ) : ℚ :=
  min ((containerWidth - 20) / iw) (5 / 2)

/-- The surface produced by renderPage in MinimalPDFViewer: canvas pixel
dimensions are the viewport size times window.devicePixelRatio and the style
size is the viewport size. -/
def renderSurface (containerWidth iw ih dpr : ℚ) : Surface :=
  let vp := getViewport iw ih (renderScale containerWidth iw)
  ⟨vp.w * dpr, vp.h * dpr, vp.w, vp.h⟩

end MinimalPDFViewer

/-- The surface shape stated by the claim: pixel dimensions
intrinsic * scale * devicePixelRatio, logical size intrinsic * scale. -/
def claimedSurface (scale iw ih dpr : ℚ) : Surface :=
  ⟨iw * scale * dpr, ih * scale * dpr, iw * scale, ih * scale⟩

/-- C8 (counterexample): with devicePixelRatio 2, a 600 wide container and an
intrinsic page width of 600, PDFViewer picks scale 1.2 and allocates a canvas
720 pixels wide, while the claimed formula gives 1440: PDFViewer does not
multiply by the device pixel ratio. -/
theorem c8_pdfviewer_ignores_dpr :
    (PDFViewer.renderSurface 600 600 800 2).pixelW = 720 ∧
      (claimedSurface (PDFViewer.renderScale 600 600) 600 800 2).pixelW =
        1440 ∧ ((720 : ℚ) ≠ 1440) := by
  refine ⟨?_, ?_, by norm_num⟩ <;>
    norm_num [PDFViewer.renderSurface, PDFViewer.renderScale, getViewport,
      claimedSurface]

/-- C8 (amended): MinimalPDFViewer matches the claimed surface formula with
its scale min((containerWidth - 20) / intrinsicWidth, 2.5); PDFViewer uses
scale max(min(containerWidth / intrinsicWidth, 2), 1.2) but matches the
claimed formula only with devicePixelRatio fixed at 1, its pixel dimensions
equalling its logical dimensions; the caps are 2.5 and 2 respectively and the
1.2 floor exists only in PDFViewer. -/
theorem c8_surface_formulas (cw iw ih dpr : ℚ) :
    MinimalPDFViewer.renderSurface cw iw ih dpr =
        claimedSurface (MinimalPDFViewer.renderScale cw iw) iw ih dpr ∧
      PDFViewer.renderSurface cw iw ih dpr =
        claimedSurface (PDFViewer.renderScale cw iw) iw ih 1 ∧
      MinimalPDFViewer.renderScale cw iw ≤ 5 / 2 ∧
      PDFViewer.renderScale cw iw ≤ 2 ∧
      6 / 5 ≤ PDFViewer.renderScale cw iw := by
  refine ⟨rfl, ?_, min_le_right _ _, ?_, le_max_right _ _⟩
  · simp [PDFViewer.renderSurface, claimedSurface, getViewport]
  · exact max_le (min_le_right _ _) (by norm_num)

/- ------------------------------------------------------------------ C9 -/

/-- State of the ResizeObserver effect of MinimalPDFViewer: the prevWidth
local and the sequence of widths passed to setContainerWidth, in order. -/
structure SizerState where
  prevWidth : ℚ
  emitted : List ℚ
deriving DecidableEq, Repr

/-- Subscription: the effect reads container.clientWidth, calls
setContainerWidth with it synchronously and initialises prevWidth to it. -/
def sizerInit (initialWidth : ℚ) : SizerState :=
  ⟨initialWidth, [initialWidth]⟩

/-- One ResizeObserver callback entry with content width newWidth: emits and
updates prevWidth only when the absolute difference exceeds 5. -/
def sizerStep (s : SizerState) (newWidth : ℚ) : SizerState :=
  if |newWidth - s.prevWidth| > 5 then ⟨newWidth, s.emitted ++ [newWidth]⟩
  else s

/-- Subscribe at initialWidth, then feed a sequence of observed widths. -/
def sizerRun (initialWidth : ℚ) (events : List ℚ) : SizerState :=
  events.foldl sizerStep (sizerInit initialWidth)

/-- C9: the sizer emits the measured width synchronously at subscription, a
new width within 5 pixels of the last emitted width produces no emission, and
concretely from 800 a change to 803 triggers nothing while a change to 810
emits. -/
theorem c9_sizer_initial_and_threshold (w0 : ℚ) (s : SizerState) (w : ℚ)
    (h : |w - s.prevWidth| ≤ 5) :
    (sizerRun w0 []).emitted = [w0] ∧
      sizerStep s w = s ∧
      (sizerRun 800 [803]).emitted = [800] ∧
      (sizerRun 800 [810]).emitted = [800, 810] := by
  refine ⟨rfl, ?_,
    by norm_num [sizerRun, sizerStep, sizerInit, List.foldl],
    by norm_num [sizerRun, sizerStep, sizerInit, List.foldl]⟩
  simp [sizerStep, not_lt.mpr h]

theorem c9_sizer_initial_and_threshold_witness :
    |(803 : ℚ) - (SizerState.mk 800 [800]).prevWidth| ≤ 5 ∧
      ((sizerRun 800 []).emitted = [800] ∧
        sizerStep ⟨800, [800]⟩ 803 = ⟨800, [800]⟩ ∧
        (sizerRun 800 [803]).emitted = [800] ∧
        (sizerRun 800 [810]).emitted = [800, 810]) :=
  ⟨by norm_num, c9_sizer_initial_and_threshold 800 ⟨800, [800]⟩ 803 (by norm_num)⟩

/- ----------------------------------------------------------------- C10 -/

/-- C10 (counterexample): before the document loads (totalPages 0), a Next
click in PDFViewer computes min(totalPages or 1, page + 1), so with the
supplied startPage -3 it sets currentPage to -2, not to 1: the claimed
behaviour does not hold regardless of the supplied startPage. -/
theorem c10_negative_start_next_not_one :
    (PDFViewer.nextClick (initState (-3))).page = -2 ∧ ((-2 : ℤ) ≠ 1) := by
  decide

/-- C10 (amended): before the document loads (totalPages 0) and for every
supplied startPage ≥ 1, any value typed into the page input sets currentPage
to exactly 1, a Next click sets currentPage to exactly 1, and a Prev click
sets currentPage to max(1, startPage - 1), only lowering it toward 1 with no
upper clamp applied. -/
theorem c10_preload_upper_bound_one (startPage v : ℤ) (h : 1 ≤ startPage) :
    (PDFViewer.inputChange (initState startPage) v).page = 1 ∧
    (PDFViewer.nextClick (initState startPage)).page = 1 ∧
    (PDFViewer.prevClick (initState startPage)).page = max 1 (startPage - 1) ∧
    (PDFViewer.prevClick (initState startPage)).page ≤ startPage := by
  simp [PDFViewer.inputChange, PDFViewer.nextClick, PDFViewer.prevClick,
    PDFViewer.handlePageChange, initState, clampPage, orOne] <;> omega

/- ------------------------------------------------------------------ C4 -/

/-- State of the render pipeline of PDFViewer / MinimalPDFViewer: the current
page, the page whose bitmap is drawn on the canvas, and the pages of the
renders still in flight. -/
structure RenderState where
  currentPage : ℤ
  surface : Option ℤ
  inflight : List ℤ
deriving DecidableEq, Repr

/-- A render-pipeline event: a navigation (the render effect re-runs and
starts a render for the new page) or the completion of an in-flight render. -/
inductive RenderEvent where
  | navigate (p : ℤ) : RenderEvent
  | complete (p : ℤ) : RenderEvent
deriving DecidableEq, Repr

/-- One step of the render pipeline as implemented: the renderPage closure
captures its page and, on completion, sets the canvas and draws that page
with no check that it is still the current page. -/
def renderStep (s : RenderState) : RenderEvent → RenderState
  | .navigate p => { s with currentPage := p, inflight := p :: s.inflight }
  | .complete p =>
      if p ∈ s.inflight then
        { s with surface := some p, inflight := s.inflight.erase p }
      else s

/-- Run the render pipeline over a sequence of events. -/
def renderRun (s : RenderState) (es : List RenderEvent) : RenderState :=
  es.foldl renderStep s

/-- C4 (code bug): with a render for page 3 in flight, navigating to page 5
and letting the page-5 render complete before the stale page-3 render, the
late page-3 completion is drawn: the surface ends showing page 3 while the
current page is 5, because no guard compares the target page of the render
with the current page before drawing. -/
theorem c4_stale_render_drawn :
    (renderRun ⟨3, none, [3]⟩
        [.navigate 5, .complete 5, .complete 3]).surface = some 3 ∧
      (renderRun ⟨3, none, [3]⟩
          [.navigate 5, .complete 5, .complete 3]).currentPage = 5 := by
  decide

/- ------------------------------------------------------------------ C5 -/

/-- State mutated by the loadPdf effect of PDFViewer: the installed document
handle (pdfDocRef.current, identified by its document id), the page count,
the loading flag and the error message. -/
structure LoadState where
  handle : Option ℤ
  totalPages : ℤ
  loading : Bool
  error : Option String
deriving DecidableEq, Repr

/-- Completion of a loadPdf call, given the value of its cancelled flag at
completion time: on success the code runs `if (cancelled) return;` before
installing the handle and page count; in the catch branch setError and in
the finally branch setLoadingPdf(false) are both guarded by `!cancelled`. -/
def completeLoad (s : LoadState) (cancelled : Bool) :
    Except String (ℤ × ℤ) → LoadState
  | .ok dn =>
      if cancelled then s
      else { s with handle := some dn.1, totalPages := dn.2, loading := false }
  | .error msg =>
      if cancelled then s
      else { s with error := some msg, loading := false }

/-- C5: a load whose cancelled flag is set before completion mutates no state
at all, and in the A-to-B scenario the handle installed is the one of B: after
the load of document B completes, the late completion of the cancelled load
of document A leaves the handle, page count, loading flag and error state of
B untouched. -/
theorem c5_stale_load_discarded :
    (∀ (s : LoadState) (r : Except String (ℤ × ℤ)),
        completeLoad s true r = s) ∧
      (completeLoad
          (completeLoad ⟨none, 0, true, none⟩ false (.ok (2, 20)))
          true (.ok (1, 10)) =
        ⟨some 2, 20, false, none⟩) := by
  constructor
  · intro s r
    rcases r with dn | msg <;> rfl
  · decide

/- ------------------------------------------------------------------ C6 -/

/-- React dependency-array semantics: an effect re-runs (cleanup, then body)
exactly when its dependency array differs from the previous render by any
component. -/
def effectRerunsOn {α : Type} [DecidableEq α] (oldDeps newDeps : α) : Bool :=
  decide (oldDeps ≠ newDeps)

/-- Identity of the debugLog useCallback of PDFViewer: it is recreated
whenever its dependency array [page, totalPages] changes. -/
def debugLogKey (page totalPages : ℤ) : ℤ × ℤ := (page, totalPages)

namespace PDFViewer

/-- Dependency array of the loadPdf effect of PDFViewer:
[courseId, debugLog]. -/
def loadDeps (courseId : String) (page totalPages : ℤ) : String × ℤ × ℤ :=
  (courseId, debugLogKey page totalPages)

end PDFViewer

namespace MinimalPDFViewer

/-- Dependency array of the loadPdf effect of MinimalPDFViewer:
[courseId]. -/
def loadDeps (courseId : String) : String := courseId

end MinimalPDFViewer

/-- C6 (code bug): with courseId fixed, a page change from 1 to 2 changes the
dependency array of the loadPdf effect of PDFViewer (its debugLog dependency
is recreated because its own dependencies are [page, totalPages]), so the
effect re-runs and the document is fetched and parsed again on page
navigation; the dependency array of MinimalPDFViewer, [courseId], is
unchanged by the same navigation, so only there the handle is created once
per documentId. -/
theorem c6_page_change_refetches :
    effectRerunsOn (PDFViewer.loadDeps "c" 1 10)
        (PDFViewer.loadDeps "c" 2 10) = true ∧
      effectRerunsOn (MinimalPDFViewer.loadDeps "c")
        (MinimalPDFViewer.loadDeps "c") = false := by
  constructor
  · rfl
  · simp [effectRerunsOn]

theorem c10_preload_upper_bound_one_witness :
    (1 : ℤ) ≤ 50 ∧
      ((PDFViewer.inputChange (initState 50) 7).page = 1 ∧
        (PDFViewer.nextClick (initState 50)).page = 1 ∧
        (PDFViewer.prevClick (initState 50)).page = max 1 (50 - 1) ∧
        (PDFViewer.prevClick (initState 50)).page ≤ 50) :=
  ⟨by decide, c10_preload_upper_bound_one 50 7 (by decide)⟩

end Summit
